import Mathlib

/-!
Verification of the SafeWalk core decision engine: the incident-density
estimator, the route scorer and the route selector found in
`src/components/RouteSearch.tsx`, together with the duplicated copy of the
same engine in the unnamed source file `part_000`, and the persisted
route-history store (`saveRoute`).

Modelling conventions:
* JS `number` coordinates, radii and distances are embedded as rationals
  (`ℚ`); the real-valued score (which uses the exponent 2.5) lives in `ℝ`.
* The source guard `Math.sqrt(dLat*dLat + dLon*dLon) > radius` is embedded
  as the equivalent square comparison `radius*radius < dLat*dLat + dLon*dLon`
  (for the non-negative radii the program uses, the two are equivalent by
  monotonicity of the square root; the only radius the program ever passes
  is the default `0.003`).
* `Math.pow(dens, 2.5)` is embedded as the real power `(dens : ℝ) ^ (2.5 : ℝ)`.
* JS `arr.reduce(f)` with no initial value is `List.foldl f head tail`;
  `arr.reduce(f, 0)` is `List.foldl f 0 arr`.
* `Math.max(...xs)` over the non-empty lists of natural-number densities the
  program produces is `xs.foldl max 0`.
* The generic `throw new Error(msg)` of the source is the `JsError`
  structure below: all failures share one kind and differ only in message.
-/

namespace SafeWalk

/-- One incident record after the numeric parsing the source performs
(`parseFloat(crime.latitude)`, `parseFloat(crime.longitude)`); both
coordinate strings are assumed to parse to numbers here.  The raw variant
`CrimeRaw` below drops that assumption. -/
structure CrimeData where
  latitude : ℚ
  longitude : ℚ
  ofns_desc : String
deriving DecidableEq

/-- An incident record before numeric parsing: `none` models a coordinate
string on which JS `parseFloat` returns `NaN`. -/
structure CrimeRaw where
  latitude : Option ℚ
  longitude : Option ℚ
  ofns_desc : String
deriving DecidableEq

/-- The route-type preference (`routeType` state). -/
inductive RouteType where
  | fastest
  | safest
deriving DecidableEq

/-- The transport mode (`transportMode` state). -/
inductive TransportMode where
  | walking
  | cycling
  | driving
deriving DecidableEq

/-- One candidate route as delivered by the routing collaborator, after the
source's `[lon,lat] → [lat,lon]` coordinate flip: `coords` is the ordered
list of `(lat, lon)` points, `distance` is in meters, `duration` in
seconds. -/
structure Route where
  coords : List (ℚ × ℚ)
  duration : ℚ
  distance : ℚ
deriving DecidableEq

/-- A candidate route together with its computed risk score (the `scored`
objects of the safest branch of `calculateRoute`). -/
structure ScoredRoute where
  coords : List (ℚ × ℚ)
  duration : ℚ
  distance : ℚ
  score : ℝ

/-- The route `calculateRoute` eventually draws: the safest branch carries a
score, the fastest branch does not. -/
structure Chosen where
  coords : List (ℚ × ℚ)
  duration : ℚ
  distance : ℚ
  score : Option ℝ

/-- A generic JS `Error`: one kind, distinguished only by its message. -/
structure JsError where
  message : String
deriving DecidableEq

/-- One entry of the persisted route-history store (`SavedRoute`). -/
structure SavedRoute where
  startLocation : String
  endLocation : String
  transportMode : TransportMode
  routeType : RouteType
  timestamp : ℤ
deriving DecidableEq

/-- JS `s.toLowerCase()`, working on the character list of the string. -/
def toLower (s : String) : List Char :=
  s.toList.map Char.toLower

/-- JS `s.includes(pat)` where `s` is already decomposed into characters:
`pat` occurs contiguously inside `s`. -/
def includes (s : List Char) (pat : String) : Bool :=
  decide (pat.toList <:+: s)

/-! Functions transcribed from `src/components/RouteSearch.tsx`. -/

namespace RS

/-- The inline `weight` classifier of `calculateCrimeDensity`
(RouteSearch.tsx lines 355-358): the already-lowercased description is
tested for the tier-1 substrings, then the tier-2 substrings, and anything
else weighs 1. -/
def weight (desc : String) : ℕ :=
  let d := toLower desc
  if includes d "assault" || includes d "robbery" then 8
  else if includes d "burglary" || includes d "theft" then 5
  else 1

/-- `calculateCrimeDensity` (RouteSearch.tsx lines 349-361): a `reduce`
over the incident list that adds the weight of every incident whose planar
degree-space distance from `(lat, lon)` does not exceed `radius` (the
source skips an incident exactly when `distance > radius`). -/
def calculateCrimeDensity (crimeData : List CrimeData) (lat lon radius : ℚ) : ℕ :=
  crimeData.foldl (fun sum crime =>
    let dLat := crime.latitude - lat
    let dLon := crime.longitude - lon
    if radius * radius < dLat * dLat + dLon * dLon then sum
    else sum + weight crime.ofns_desc) 0

/-- The scoring of one candidate inside the safest branch of
`calculateRoute` (RouteSearch.tsx lines 425-444): `crimeScore` accumulates
`density^2.5` over the even-indexed points only, `maxD` is the maximum
density over all points, `avgD` divides `crimeScore` by the full point
count, and the distance penalty is `distance * 0.0001`. -/
noncomputable def scoreRoute (crimeData : List CrimeData) (r : Route) : ScoredRoute :=
  let coords := r.coords
  let crimeScore : ℝ := coords.enum.foldl (fun tot ip =>
    if ip.1 % 2 = 0 then
      let dens := calculateCrimeDensity crimeData ip.2.1 ip.2.2 0.003
      tot + (if 0 < dens then (dens : ℝ) ^ (2.5 : ℝ) else 0)
    else tot) 0
  let maxD : ℕ := (coords.map (fun p =>
    calculateCrimeDensity crimeData p.1 p.2 0.003)).foldl max 0
  let avgD : ℝ := crimeScore / (coords.length : ℝ)
  let distP : ℝ := (r.distance : ℝ) * 0.0001
  ⟨coords, r.duration, r.distance, crimeScore + (maxD : ℝ) * 15 + avgD * 8 + distP⟩

/-- The selection logic of `calculateRoute` (RouteSearch.tsx lines
418-455): an empty route list throws the generic error
`'No routes returned.'`; the safest preference with more than one
candidate scores every candidate and keeps the one whose score is
strictly smaller than the running best; every other case keeps the
candidate whose distance is strictly smaller than the running best. -/
noncomputable def selectRoute (routeType : RouteType) (crimeData : List CrimeData)
    (routes : List Route) : Except JsError Chosen :=
  match routes with
  | [] => .error ⟨"No routes returned."⟩
  | r0 :: rest =>
    if routeType = RouteType.safest ∧ 1 < (r0 :: rest).length then
      let chosen := (rest.map (scoreRoute crimeData)).foldl
        (fun a b => if b.score < a.score then b else a) (scoreRoute crimeData r0)
      .ok ⟨chosen.coords, chosen.duration, chosen.distance, some chosen.score⟩
    else
      let shortest := rest.foldl
        (fun a b => if b.distance < a.distance then b else a) r0
      .ok ⟨shortest.coords, shortest.duration, shortest.distance, none⟩

/-- `saveRoute` (RouteSearch.tsx lines 200-224): a falsy (empty) location
aborts; an entry matching the new route on all four non-timestamp fields
suppresses the save; otherwise the new entry is prepended and the list
truncated to 10. -/
def saveRoute (startLocation endLocation : String) (transportMode : TransportMode)
    (routeType : RouteType) (now : ℤ) (savedRoutes : List SavedRoute) :
    List SavedRoute :=
  if startLocation = "" ∨ endLocation = "" then savedRoutes
  else
    let newRoute : SavedRoute := ⟨startLocation, endLocation, transportMode, routeType, now⟩
    let isDuplicate := savedRoutes.any (fun route =>
      decide (route.startLocation = newRoute.startLocation ∧
        route.endLocation = newRoute.endLocation ∧
        route.transportMode = newRoute.transportMode ∧
        route.routeType = newRoute.routeType))
    if isDuplicate then savedRoutes
    else (newRoute :: savedRoutes).take 10

/-- `calculateCrimeDensity` as it behaves on raw, possibly non-numeric
coordinate strings.  When a coordinate fails to parse, `parseFloat`
returns `NaN`, every arithmetic result through `Math.sqrt` is `NaN`, and
the skip guard `NaN > radius` is false under IEEE comparison, so the
incident falls through to the weighing step and is counted in full. -/
def calculateCrimeDensityRaw (crimeData : List CrimeRaw) (lat lon radius : ℚ) : ℕ :=
  crimeData.foldl (fun sum crime =>
    match crime.latitude, crime.longitude with
    | some clat, some clon =>
      let dLat := clat - lat
      let dLon := clon - lon
      if radius * radius < dLat * dLat + dLon * dLon then sum
      else sum + weight crime.ofns_desc
    | _, _ => sum + weight crime.ofns_desc) 0

end RS

/-! Functions transcribed from the unnamed source file `part_000`, whose
lines 209-316 duplicate the engine of RouteSearch.tsx verbatim; its
`saveRoute` (lines 83-97) differs: it has no duplicate check. -/

namespace P0

/-- The inline `weight` classifier of `calculateCrimeDensity`
(part_000 lines 216-219). -/
def weight (desc : String) : ℕ :=
  let d := toLower desc
  if includes d "assault" || includes d "robbery" then 8
  else if includes d "burglary" || includes d "theft" then 5
  else 1

/-- `calculateCrimeDensity` (part_000 lines 210-222). -/
def calculateCrimeDensity (crimeData : List CrimeData) (lat lon radius : ℚ) : ℕ :=
  crimeData.foldl (fun sum crime =>
    let dLat := crime.latitude - lat
    let dLon := crime.longitude - lon
    if radius * radius < dLat * dLat + dLon * dLon then sum
    else sum + weight crime.ofns_desc) 0

/-- The per-candidate scoring inside the safest branch of
`calculateRoute` (part_000 lines 286-306). -/
noncomputable def scoreRoute (crimeData : List CrimeData) (r : Route) : ScoredRoute :=
  let coords := r.coords
  let crimeScore : ℝ := coords.enum.foldl (fun tot ip =>
    if ip.1 % 2 = 0 then
      let dens := calculateCrimeDensity crimeData ip.2.1 ip.2.2 0.003
      tot + (if 0 < dens then (dens : ℝ) ^ (2.5 : ℝ) else 0)
    else tot) 0
  let maxD : ℕ := (coords.map (fun p =>
    calculateCrimeDensity crimeData p.1 p.2 0.003)).foldl max 0
  let avgD : ℝ := crimeScore / (coords.length : ℝ)
  let distP : ℝ := (r.distance : ℝ) * 0.0001
  ⟨coords, r.duration, r.distance, crimeScore + (maxD : ℝ) * 15 + avgD * 8 + distP⟩

/-- The selection logic of `calculateRoute` (part_000 lines 279-316). -/
noncomputable def selectRoute (routeType : RouteType) (crimeData : List CrimeData)
    (routes : List Route) : Except JsError Chosen :=
  match routes with
  | [] => .error ⟨"No routes returned."⟩
  | r0 :: rest =>
    if routeType = RouteType.safest ∧ 1 < (r0 :: rest).length then
      let chosen := (rest.map (scoreRoute crimeData)).foldl
        (fun a b => if b.score < a.score then b else a) (scoreRoute crimeData r0)
      .ok ⟨chosen.coords, chosen.duration, chosen.distance, some chosen.score⟩
    else
      let shortest := rest.foldl
        (fun a b => if b.distance < a.distance then b else a) r0
      .ok ⟨shortest.coords, shortest.duration, shortest.distance, none⟩

/-- `saveRoute` (part_000 lines 83-97): a falsy (empty) location aborts;
otherwise the new entry is prepended and the list truncated to 10, with no
duplicate check of any kind. -/
def saveRoute (startLocation endLocation : String) (transportMode : TransportMode)
    (routeType : RouteType) (now : ℤ) (savedRoutes : List SavedRoute) :
    List SavedRoute :=
  if startLocation = "" ∨ endLocation = "" then savedRoutes
  else
    let newRoute : SavedRoute := ⟨startLocation, endLocation, transportMode, routeType, now⟩
    (newRoute :: savedRoutes).take 10

end P0

/-- The spec's `crimeExposure` (§4.2 steps 1-2), written from its words:
over the even-indexed points of the path only, sum `density^2.5` when the
density is positive and 0 when it is zero. -/
noncomputable def specCrimeExposure (crimeData : List CrimeData)
    (coords : List (ℚ × ℚ)) : ℝ :=
  ((coords.enum.filter fun ip => decide (ip.1 % 2 = 0)).map fun ip =>
    let dens := RS.calculateCrimeDensity crimeData ip.2.1 ip.2.2 0.003
    if 0 < dens then (dens : ℝ) ^ (2.5 : ℝ) else 0).sum

/-! Helper lemmas about the folds the source uses. -/

/-- A guarded accumulating fold is the initial value plus the sum of the
selected contributions. -/
lemma foldl_guard_sum {α : Type} (P : α → Prop) [DecidablePred P] (f : α → ℝ)
    (l : List α) : ∀ a : ℝ,
    l.foldl (fun tot x => if P x then tot + f x else tot) a
      = a + ((l.filter fun x => decide (P x)).map f).sum := by
  induction l with
  | nil => simp
  | cons c t ih =>
    intro a
    by_cases hc : P c
    · simp [hc, ih, add_assoc]
    · simp [hc, ih]

/-- The starting value is below a `max`-fold. -/
lemma le_foldl_max (l : List ℕ) (a : ℕ) : a ≤ l.foldl max a := by
  induction l generalizing a with
  | nil => exact le_rfl
  | cons c t ih => exact le_trans (le_max_left a c) (ih (max a c))

/-- Every list member is below a `max`-fold. -/
lemma mem_le_foldl_max (l : List ℕ) (a : ℕ) : ∀ x ∈ l, x ≤ l.foldl max a := by
  induction l generalizing a with
  | nil => intro x hx; cases hx
  | cons c t ih =>
    intro x hx
    rcases List.mem_cons.mp hx with rfl | hx
    · exact le_trans (le_max_right a x) (le_foldl_max t (max a x))
    · exact ih (max a c) x hx

/-- A `max`-fold is the starting value or a member of the list. -/
lemma foldl_max_mem (l : List ℕ) (a : ℕ) :
    l.foldl max a = a ∨ l.foldl max a ∈ l := by
  induction l generalizing a with
  | nil => exact Or.inl rfl
  | cons c t ih =>
    rcases ih (max a c) with h | h
    · rcases max_choice a c with hm | hm
      · left; simp only [List.foldl_cons]; rw [h, hm]
      · right; simp only [List.foldl_cons]; rw [h, hm]; exact List.mem_cons_self c t
    · exact Or.inr (List.mem_cons_of_mem c h)

/-- On a non-empty list of naturals, a `max`-fold started at 0 is attained
by a member (the embedding of `Math.max(...xs)` for the non-empty lists of
non-negative densities the program builds). -/
lemma foldl_max_zero_mem (l : List ℕ) (hne : l ≠ []) : l.foldl max 0 ∈ l := by
  rcases foldl_max_mem l 0 with h | h
  · cases l with
    | nil => exact absurd rfl hne
    | cons c t =>
      have hc : c ≤ 0 := h ▸ mem_le_foldl_max (c :: t) 0 c (List.mem_cons_self c t)
      have hc0 : c = 0 := Nat.le_zero.mp hc
      subst hc0
      rw [h]
      exact List.mem_cons_self 0 t
  · exact h

/-- A `max`-fold stays below any common upper bound. -/
lemma foldl_max_le (l : List ℕ) (b : ℕ) (hb : ∀ x ∈ l, x ≤ b) :
    ∀ a, a ≤ b → l.foldl max a ≤ b := by
  induction l with
  | nil => intro a ha; exact ha
  | cons c t ih =>
    intro a ha
    exact ih (fun x hx => hb x (List.mem_cons_of_mem c hx)) (max a c)
      (max_le ha (hb c (List.mem_cons_self c t)))

/-- Appending one incident to the data set adds its weight exactly when the
skip guard (`distance > radius`, embedded on squares) is false. -/
lemma calculateCrimeDensity_append (crimeData : List CrimeData) (c : CrimeData)
    (lat lon radius : ℚ) :
    RS.calculateCrimeDensity (crimeData ++ [c]) lat lon radius
      = RS.calculateCrimeDensity crimeData lat lon radius
        + (if radius * radius < (c.latitude - lat) * (c.latitude - lat)
              + (c.longitude - lon) * (c.longitude - lon)
           then 0 else RS.weight c.ofns_desc) := by
  unfold RS.calculateCrimeDensity
  rw [List.foldl_append]
  by_cases hc : radius * radius < (c.latitude - lat) * (c.latitude - lat)
      + (c.longitude - lon) * (c.longitude - lon)
  · simp [hc]
  · simp [hc]

/-- Every incident weight is positive: unmatched categories weigh 1, never 0. -/
lemma weight_pos (desc : String) : 0 < RS.weight desc := by
  unfold RS.weight
  dsimp only
  split
  · norm_num
  · split <;> norm_num

/-- The source's skip guard, on squares of rationals, agrees with the
spec's planar degree-space distance comparison `sqrt(dLat² + dLon²) > radius`
for non-negative radii. -/
lemma skip_guard_iff (dLat dLon radius : ℚ) (hr : 0 ≤ radius) :
    (radius : ℝ) < Real.sqrt (((dLat : ℝ)) ^ 2 + ((dLon : ℝ)) ^ 2)
      ↔ radius * radius < dLat * dLat + dLon * dLon := by
  have hcast : ((dLat : ℝ)) ^ 2 + ((dLon : ℝ)) ^ 2
      = ((dLat * dLat + dLon * dLon : ℚ) : ℝ) := by push_cast; ring
  rw [hcast, Real.lt_sqrt (by exact_mod_cast hr)]
  rw [show ((radius : ℝ)) ^ 2 = ((radius * radius : ℚ) : ℝ) by push_cast; ring]
  exact_mod_cast Iff.rfl

/-- C4 counterexample: an incident whose planar degree-space distance from
the query point equals the radius exactly (here distance = radius = 0.003)
is NOT excluded: it contributes its full weight 1, because the source skips
an incident only when `distance > radius` is strictly true. -/
theorem C4_boundary_incident_counted :
    Real.sqrt ((((3 : ℚ)/1000 - 0 : ℚ) : ℝ) ^ 2 + (((0 : ℚ) - 0 : ℚ) : ℝ) ^ 2)
      = (((3 : ℚ)/1000 : ℚ) : ℝ) ∧
    RS.calculateCrimeDensity [⟨3/1000, 0, "x"⟩] 0 0 (3/1000) = 1 := by
  constructor
  · have h1 : (((3 : ℚ)/1000 - 0 : ℚ) : ℝ) ^ 2 + (((0 : ℚ) - 0 : ℚ) : ℝ) ^ 2
        = ((((3 : ℚ)/1000 : ℚ) : ℝ)) ^ 2 := by push_cast; norm_num
    rw [h1, Real.sqrt_sq (by positivity)]
  · have hw : RS.weight "x" = 1 := by decide
    norm_num [RS.calculateCrimeDensity, hw]

/-- Claim C4, amended: an incident strictly farther than the (non-negative)
radius contributes 0 to the density; an incident at distance exactly equal
to the radius is included, not excluded (see the counterexample). -/
theorem C4_far_incident_contributes_zero (crimeData : List CrimeData)
    (c : CrimeData) (lat lon radius : ℚ) (hr : 0 ≤ radius)
    (hfar : (radius : ℝ) < Real.sqrt (((c.latitude - lat : ℚ) : ℝ) ^ 2
      + ((c.longitude - lon : ℚ) : ℝ) ^ 2)) :
    RS.calculateCrimeDensity (crimeData ++ [c]) lat lon radius
      = RS.calculateCrimeDensity crimeData lat lon radius := by
  have hguard := (skip_guard_iff (c.latitude - lat) (c.longitude - lon) radius hr).mp hfar
  rw [calculateCrimeDensity_append, if_pos hguard, Nat.add_zero]

/-- Witness for `C4_far_incident_contributes_zero` at a concrete input. -/
theorem C4_far_incident_contributes_zero_witness :
    (0 : ℚ) ≤ 3/1000 ∧
    (((3 : ℚ)/1000 : ℚ) : ℝ) < Real.sqrt ((((1 : ℚ) - 0 : ℚ) : ℝ) ^ 2
      + (((1 : ℚ) - 0 : ℚ) : ℝ) ^ 2) ∧
    RS.calculateCrimeDensity ([] ++ [⟨1, 1, "x"⟩]) 0 0 (3/1000)
      = RS.calculateCrimeDensity [] 0 0 (3/1000) := by
  have hr : (0 : ℚ) ≤ 3/1000 := by norm_num
  have hfar : (((3 : ℚ)/1000 : ℚ) : ℝ) < Real.sqrt ((((1 : ℚ) - 0 : ℚ) : ℝ) ^ 2
      + (((1 : ℚ) - 0 : ℚ) : ℝ) ^ 2) := by
    rw [skip_guard_iff (1 - 0) (1 - 0) (3/1000) hr]
    norm_num
  exact ⟨hr, hfar, C4_far_incident_contributes_zero [] ⟨1, 1, "x"⟩ 0 0 (3/1000) hr hfar⟩

/-- Claim C5: with the three-tier classifier (tiers tested in order, as the
source does), adding one in-radius incident raises the density by exactly 8
for the assault/robbery tier, by exactly 5 for the burglary/theft tier (a
description not already in tier 1), and by exactly 1 otherwise — and the
density always strictly increases, never by 0. -/
theorem C5_density_weight_monotonic (crimeData : List CrimeData) (c : CrimeData)
    (lat lon radius : ℚ) (hr : 0 ≤ radius)
    (hin : Real.sqrt (((c.latitude - lat : ℚ) : ℝ) ^ 2
      + ((c.longitude - lon : ℚ) : ℝ) ^ 2) ≤ (radius : ℝ)) :
    ((includes (toLower c.ofns_desc) "assault"
        || includes (toLower c.ofns_desc) "robbery") = true →
      RS.calculateCrimeDensity (crimeData ++ [c]) lat lon radius
        = RS.calculateCrimeDensity crimeData lat lon radius + 8) ∧
    ((includes (toLower c.ofns_desc) "assault"
        || includes (toLower c.ofns_desc) "robbery") = false →
      (includes (toLower c.ofns_desc) "burglary"
        || includes (toLower c.ofns_desc) "theft") = true →
      RS.calculateCrimeDensity (crimeData ++ [c]) lat lon radius
        = RS.calculateCrimeDensity crimeData lat lon radius + 5) ∧
    ((includes (toLower c.ofns_desc) "assault"
        || includes (toLower c.ofns_desc) "robbery") = false →
      (includes (toLower c.ofns_desc) "burglary"
        || includes (toLower c.ofns_desc) "theft") = false →
      RS.calculateCrimeDensity (crimeData ++ [c]) lat lon radius
        = RS.calculateCrimeDensity crimeData lat lon radius + 1) ∧
    RS.calculateCrimeDensity crimeData lat lon radius
      < RS.calculateCrimeDensity (crimeData ++ [c]) lat lon radius := by
  have hguard : ¬ (radius * radius < (c.latitude - lat) * (c.latitude - lat)
      + (c.longitude - lon) * (c.longitude - lon)) := by
    intro h
    exact absurd ((skip_guard_iff (c.latitude - lat) (c.longitude - lon) radius hr).mpr h)
      (not_lt.mpr hin)
  have happ := calculateCrimeDensity_append crimeData c lat lon radius
  rw [if_neg hguard] at happ
  refine ⟨?_, ?_, ?_, ?_⟩
  · intro h1
    rw [happ]
    congr 1
    simp [RS.weight, h1]
  · intro h1 h2
    rw [happ]
    congr 1
    simp [RS.weight, h1, h2]
  · intro h1 h2
    rw [happ]
    congr 1
    simp [RS.weight, h1, h2]
  · rw [happ]
    exact Nat.lt_add_of_pos_right (weight_pos c.ofns_desc)

/-- Witness for `C5_density_weight_monotonic` at a concrete input: one
"assault" incident sitting exactly on the query point. -/
theorem C5_density_weight_monotonic_witness :
    (0 : ℚ) ≤ 3/1000 ∧
    Real.sqrt ((((0 : ℚ) - 0 : ℚ) : ℝ) ^ 2 + (((0 : ℚ) - 0 : ℚ) : ℝ) ^ 2)
      ≤ (((3 : ℚ)/1000 : ℚ) : ℝ) ∧
    (((includes (toLower "assault") "assault"
        || includes (toLower "assault") "robbery") = true →
      RS.calculateCrimeDensity ([] ++ [⟨0, 0, "assault"⟩]) 0 0 (3/1000)
        = RS.calculateCrimeDensity [] 0 0 (3/1000) + 8) ∧
    ((includes (toLower "assault") "assault"
        || includes (toLower "assault") "robbery") = false →
      (includes (toLower "assault") "burglary"
        || includes (toLower "assault") "theft") = true →
      RS.calculateCrimeDensity ([] ++ [⟨0, 0, "assault"⟩]) 0 0 (3/1000)
        = RS.calculateCrimeDensity [] 0 0 (3/1000) + 5) ∧
    ((includes (toLower "assault") "assault"
        || includes (toLower "assault") "robbery") = false →
      (includes (toLower "assault") "burglary"
        || includes (toLower "assault") "theft") = false →
      RS.calculateCrimeDensity ([] ++ [⟨0, 0, "assault"⟩]) 0 0 (3/1000)
        = RS.calculateCrimeDensity [] 0 0 (3/1000) + 1) ∧
    RS.calculateCrimeDensity [] 0 0 (3/1000)
      < RS.calculateCrimeDensity ([] ++ [⟨0, 0, "assault"⟩]) 0 0 (3/1000)) := by
  have hr : (0 : ℚ) ≤ 3/1000 := by norm_num
  have hin : Real.sqrt ((((0 : ℚ) - 0 : ℚ) : ℝ) ^ 2 + (((0 : ℚ) - 0 : ℚ) : ℝ) ^ 2)
      ≤ (((3 : ℚ)/1000 : ℚ) : ℝ) := by
    have h0 : (((0 : ℚ) - 0 : ℚ) : ℝ) ^ 2 + (((0 : ℚ) - 0 : ℚ) : ℝ) ^ 2 = 0 := by
      norm_num
    rw [h0, Real.sqrt_zero]
    norm_num
  exact ⟨hr, hin, C5_density_weight_monotonic [] ⟨0, 0, "assault"⟩ 0 0 (3/1000) hr hin⟩

/-- Claim C7 at its failing input: the density computation raises no error
on a malformed (non-numeric) coordinate.  `parseFloat` yields `NaN`, the
skip guard `NaN > radius` is false, and the incident is counted with its
full weight — indistinguishable from an incident at zero distance. -/
theorem C7_malformed_incident_counted :
    RS.calculateCrimeDensityRaw [⟨none, some 0, "x"⟩] 0 0 (3/1000) = 1 ∧
    RS.calculateCrimeDensityRaw [⟨none, some 0, "x"⟩] 0 0 (3/1000)
      = RS.calculateCrimeDensityRaw [⟨some 0, some 0, "x"⟩] 0 0 (3/1000) := by
  have hw : RS.weight "x" = 1 := by decide
  constructor
  · norm_num [RS.calculateCrimeDensityRaw, hw]
  · norm_num [RS.calculateCrimeDensityRaw, hw]

/-- C9 counterexample: the `saveRoute` copy in `part_000` has no duplicate
check — saving a route whose four non-timestamp fields exactly match the
stored entry prepends a second copy instead of leaving the list unchanged. -/
theorem C9_part0_duplicate_not_deduped :
    P0.saveRoute "a" "b" TransportMode.walking RouteType.fastest 5
        [⟨"a", "b", TransportMode.walking, RouteType.fastest, 0⟩]
      = [⟨"a", "b", TransportMode.walking, RouteType.fastest, 5⟩,
         ⟨"a", "b", TransportMode.walking, RouteType.fastest, 0⟩] := by
  decide

/-- Claim C9, amended: both `saveRoute` copies cap the store at the 10 most
recent entries, and the RouteSearch.tsx copy deduplicates by exact match on
the four non-timestamp fields (leaving the list unchanged); the `part_000`
copy does not deduplicate (see the counterexample). -/
theorem C9_cap_and_dedup (s e : String) (tm : TransportMode) (rt : RouteType)
    (now : ℤ) (saved : List SavedRoute) (hlen : saved.length ≤ 10) :
    (RS.saveRoute s e tm rt now saved).length ≤ 10 ∧
    (P0.saveRoute s e tm rt now saved).length ≤ 10 ∧
    ((∃ r ∈ saved, r.startLocation = s ∧ r.endLocation = e ∧
        r.transportMode = tm ∧ r.routeType = rt) →
      RS.saveRoute s e tm rt now saved = saved) := by
  refine ⟨?_, ?_, ?_⟩
  · unfold RS.saveRoute
    dsimp only
    split
    · exact hlen
    · split
      · exact hlen
      · rw [List.length_take]
        exact min_le_left _ _
  · unfold P0.saveRoute
    dsimp only
    split
    · exact hlen
    · rw [List.length_take]
      exact min_le_left _ _
  · rintro ⟨r, hr, h1, h2, h3, h4⟩
    unfold RS.saveRoute
    dsimp only
    split
    · rfl
    · rw [if_pos]
      exact List.any_eq_true.mpr ⟨r, hr, by simp [h1, h2, h3, h4]⟩

/-- Witness for `C9_cap_and_dedup` at a concrete input. -/
theorem C9_cap_and_dedup_witness :
    ([⟨"a", "b", TransportMode.walking, RouteType.fastest, 0⟩] :
        List SavedRoute).length ≤ 10 ∧
    ((RS.saveRoute "a" "b" TransportMode.walking RouteType.fastest 5
        [⟨"a", "b", TransportMode.walking, RouteType.fastest, 0⟩]).length ≤ 10 ∧
    (P0.saveRoute "a" "b" TransportMode.walking RouteType.fastest 5
        [⟨"a", "b", TransportMode.walking, RouteType.fastest, 0⟩]).length ≤ 10 ∧
    ((∃ r ∈ ([⟨"a", "b", TransportMode.walking, RouteType.fastest, 0⟩] :
        List SavedRoute), r.startLocation = "a" ∧ r.endLocation = "b" ∧
        r.transportMode = TransportMode.walking ∧ r.routeType = RouteType.fastest) →
      RS.saveRoute "a" "b" TransportMode.walking RouteType.fastest 5
          [⟨"a", "b", TransportMode.walking, RouteType.fastest, 0⟩]
        = [⟨"a", "b", TransportMode.walking, RouteType.fastest, 0⟩])) :=
  ⟨by decide, C9_cap_and_dedup "a" "b" TransportMode.walking RouteType.fastest 5
      [⟨"a", "b", TransportMode.walking, RouteType.fastest, 0⟩] (by decide)⟩

/-- Claim C10: the two copies of the decision engine — `calculateCrimeDensity`
and the scoring-and-selection logic of `calculateRoute` in RouteSearch.tsx
and in `part_000` — are behaviorally equivalent on every input. -/
theorem C10_engine_copies_equal :
    (∀ crimeData lat lon radius, RS.calculateCrimeDensity crimeData lat lon radius
        = P0.calculateCrimeDensity crimeData lat lon radius) ∧
    (∀ crimeData r, RS.scoreRoute crimeData r = P0.scoreRoute crimeData r) ∧
    (∀ routeType crimeData routes, RS.selectRoute routeType crimeData routes
        = P0.selectRoute routeType crimeData routes) :=
  ⟨fun _ _ _ _ => rfl, fun _ _ => rfl, fun _ _ _ => rfl⟩

/-- C6 counterexample: a candidate set containing a path with fewer than 2
points is not rejected — selection succeeds instead of failing with any
`InvalidInput`-like condition. -/
theorem C6_short_path_not_rejected :
    (∃ r ∈ ([⟨[(0, 0)], 10, 5⟩, ⟨[(0, 0), (1, 1)], 20, 7⟩] : List Route),
        r.coords.length < 2) ∧
    (∃ c, RS.selectRoute RouteType.safest []
        [⟨[(0, 0)], 10, 5⟩, ⟨[(0, 0), (1, 1)], 20, 7⟩] = .ok c) := by
  constructor
  · exact ⟨⟨[(0, 0)], 10, 5⟩, List.mem_cons_self _ _, by decide⟩
  · unfold RS.selectRoute
    dsimp only
    split
    · exact ⟨_, rfl⟩
    · exact ⟨_, rfl⟩

/-- Claim C6, amended: selection fails exactly on an empty candidate set,
and the failure is the one generic error kind (`JsError`, message
`'No routes returned.'`), not a distinct `InvalidInput`; candidate paths
with fewer than 2 points are not rejected. -/
theorem C6_select_error_iff_empty (routeType : RouteType)
    (crimeData : List CrimeData) (routes : List Route) :
    RS.selectRoute routeType crimeData [] = .error ⟨"No routes returned."⟩ ∧
    ((∃ e, RS.selectRoute routeType crimeData routes = .error e) ↔ routes = []) := by
  constructor
  · rfl
  · constructor
    · rintro ⟨e, he⟩
      cases routes with
      | nil => rfl
      | cons r0 rest =>
        rw [RS.selectRoute] at he
        revert he
        split <;> intro he <;> cases he
    · rintro rfl
      exact ⟨_, rfl⟩

/-- Claim C1: for a well-formed path the score is exactly
`crimeExposure + maxDensity*15 + avgDensity*8 + distance*0.0001`, where
`crimeExposure` sums `density^2.5` over the even-indexed points only (0 for
zero density), `maxDensity` is the maximum density over ALL points, and
`avgDensity` divides `crimeExposure` by the full point count. -/
theorem C1_score_formula (crimeData : List CrimeData) (r : Route)
    (h2 : 2 ≤ r.coords.length) :
    ∃ M : ℕ,
      M ∈ (r.coords.map fun p => RS.calculateCrimeDensity crimeData p.1 p.2 0.003) ∧
      (∀ d ∈ (r.coords.map fun p => RS.calculateCrimeDensity crimeData p.1 p.2 0.003),
        d ≤ M) ∧
      (RS.scoreRoute crimeData r).score
        = specCrimeExposure crimeData r.coords + (M : ℝ) * 15
          + specCrimeExposure crimeData r.coords / (r.coords.length : ℝ) * 8
          + (r.distance : ℝ) * 0.0001 := by
  have hne : (r.coords.map fun p =>
      RS.calculateCrimeDensity crimeData p.1 p.2 0.003) ≠ [] := by
    intro h
    have hlen := congrArg List.length h
    simp only [List.length_map, List.length_nil] at hlen
    omega
  refine ⟨_, foldl_max_zero_mem _ hne, mem_le_foldl_max _ 0, ?_⟩
  unfold RS.scoreRoute
  dsimp only
  rw [foldl_guard_sum (fun ip : ℕ × ℚ × ℚ => ip.1 % 2 = 0)
    (fun ip => if 0 < RS.calculateCrimeDensity crimeData ip.2.1 ip.2.2 0.003
      then ((RS.calculateCrimeDensity crimeData ip.2.1 ip.2.2 0.003 : ℕ) : ℝ) ^ (2.5 : ℝ)
      else 0) r.coords.enum 0, zero_add]
  rfl

/-- Witness for `C1_score_formula` at a concrete input. -/
theorem C1_score_formula_witness :
    2 ≤ (⟨[(0, 0), (0, 1)], 10, 100⟩ : Route).coords.length ∧
    ∃ M : ℕ,
      M ∈ ((⟨[(0, 0), (0, 1)], 10, 100⟩ : Route).coords.map fun p =>
        RS.calculateCrimeDensity [] p.1 p.2 0.003) ∧
      (∀ d ∈ ((⟨[(0, 0), (0, 1)], 10, 100⟩ : Route).coords.map fun p =>
        RS.calculateCrimeDensity [] p.1 p.2 0.003), d ≤ M) ∧
      (RS.scoreRoute [] (⟨[(0, 0), (0, 1)], 10, 100⟩ : Route)).score
        = specCrimeExposure [] (⟨[(0, 0), (0, 1)], 10, 100⟩ : Route).coords
          + (M : ℝ) * 15
          + specCrimeExposure [] (⟨[(0, 0), (0, 1)], 10, 100⟩ : Route).coords
            / (((⟨[(0, 0), (0, 1)], 10, 100⟩ : Route).coords.length : ℕ) : ℝ) * 8
          + ((⟨[(0, 0), (0, 1)], 10, 100⟩ : Route).distance : ℝ) * 0.0001 :=
  ⟨by decide, C1_score_formula [] ⟨[(0, 0), (0, 1)], 10, 100⟩ (by decide)⟩

/-- Claim C8: the score of a well-formed path (≥ 2 points, non-negative
distance) is non-negative for every incident set, and over the empty
incident set it is exactly the distance penalty `distance * 0.0001`. -/
theorem C8_score_nonneg_empty_penalty (crimeData : List CrimeData) (r : Route)
    (h2 : 2 ≤ r.coords.length) (hd : 0 ≤ r.distance) :
    0 ≤ (RS.scoreRoute crimeData r).score ∧
    (RS.scoreRoute [] r).score = (r.distance : ℝ) * 0.0001 := by
  constructor
  · unfold RS.scoreRoute
    dsimp only
    rw [foldl_guard_sum (fun ip : ℕ × ℚ × ℚ => ip.1 % 2 = 0)
      (fun ip => if 0 < RS.calculateCrimeDensity crimeData ip.2.1 ip.2.2 0.003
        then ((RS.calculateCrimeDensity crimeData ip.2.1 ip.2.2 0.003 : ℕ) : ℝ) ^ (2.5 : ℝ)
        else 0) r.coords.enum 0, zero_add]
    have hS : 0 ≤ (((r.coords.enum.filter fun ip => decide (ip.1 % 2 = 0)).map
        fun ip => if 0 < RS.calculateCrimeDensity crimeData ip.2.1 ip.2.2 0.003
          then ((RS.calculateCrimeDensity crimeData ip.2.1 ip.2.2 0.003 : ℕ) : ℝ) ^ (2.5 : ℝ)
          else 0).sum) := by
      apply List.sum_nonneg
      intro x hx
      obtain ⟨ip, _, rfl⟩ := List.mem_map.mp hx
      split
      · exact Real.rpow_nonneg (Nat.cast_nonneg _) _
      · exact le_rfl
    have hden : (0 : ℝ) ≤ ((r.coords.length : ℕ) : ℝ) := Nat.cast_nonneg _
    have hdist : (0 : ℝ) ≤ (r.distance : ℝ) * 0.0001 := by
      apply mul_nonneg _ (by norm_num)
      exact_mod_cast hd
    have hmax : (0 : ℝ) ≤ (((r.coords.map fun p =>
        RS.calculateCrimeDensity crimeData p.1 p.2 0.003).foldl max 0 : ℕ) : ℝ) * 15 :=
      mul_nonneg (Nat.cast_nonneg _) (by norm_num)
    have havg : (0 : ℝ) ≤ (((r.coords.enum.filter fun ip => decide (ip.1 % 2 = 0)).map
        fun ip => if 0 < RS.calculateCrimeDensity crimeData ip.2.1 ip.2.2 0.003
          then ((RS.calculateCrimeDensity crimeData ip.2.1 ip.2.2 0.003 : ℕ) : ℝ) ^ (2.5 : ℝ)
          else 0).sum) / ((r.coords.length : ℕ) : ℝ) * 8 :=
      mul_nonneg (div_nonneg hS hden) (by norm_num)
    exact add_nonneg (add_nonneg (add_nonneg hS hmax) havg) hdist
  · have hzero : ∀ (lat lon : ℚ), RS.calculateCrimeDensity [] lat lon 0.003 = 0 :=
      fun _ _ => rfl
    unfold RS.scoreRoute
    dsimp only
    rw [foldl_guard_sum (fun ip : ℕ × ℚ × ℚ => ip.1 % 2 = 0)
      (fun ip => if 0 < RS.calculateCrimeDensity [] ip.2.1 ip.2.2 0.003
        then ((RS.calculateCrimeDensity [] ip.2.1 ip.2.2 0.003 : ℕ) : ℝ) ^ (2.5 : ℝ)
        else 0) r.coords.enum 0, zero_add]
    have hsum : (((r.coords.enum.filter fun ip => decide (ip.1 % 2 = 0)).map
        fun ip => if 0 < RS.calculateCrimeDensity [] ip.2.1 ip.2.2 0.003
          then ((RS.calculateCrimeDensity [] ip.2.1 ip.2.2 0.003 : ℕ) : ℝ) ^ (2.5 : ℝ)
          else 0).sum) = 0 := by
      apply List.sum_eq_zero
      intro x hx
      obtain ⟨ip, _, rfl⟩ := List.mem_map.mp hx
      simp [hzero]
    have hmax0 : ((r.coords.map fun p =>
        RS.calculateCrimeDensity [] p.1 p.2 0.003).foldl max 0) = 0 := by
      apply Nat.le_zero.mp
      apply foldl_max_le _ 0 _ 0 le_rfl
      intro x hx
      obtain ⟨p, _, rfl⟩ := List.mem_map.mp hx
      exact Nat.le_of_eq (hzero p.1 p.2)
    rw [hsum, hmax0]
    simp

/-- Witness for `C8_score_nonneg_empty_penalty` at a concrete input. -/
theorem C8_score_nonneg_empty_penalty_witness :
    2 ≤ (⟨[(0, 0), (0, 1)], 10, 100⟩ : Route).coords.length ∧
    (0 : ℚ) ≤ (⟨[(0, 0), (0, 1)], 10, 100⟩ : Route).distance ∧
    (0 ≤ (RS.scoreRoute [] (⟨[(0, 0), (0, 1)], 10, 100⟩ : Route)).score ∧
      (RS.scoreRoute [] (⟨[(0, 0), (0, 1)], 10, 100⟩ : Route)).score
        = ((⟨[(0, 0), (0, 1)], 10, 100⟩ : Route).distance : ℝ) * 0.0001) :=
  ⟨by decide, by norm_num,
    C8_score_nonneg_empty_penalty [] ⟨[(0, 0), (0, 1)], 10, 100⟩ (by decide) (by norm_num)⟩

/-- The `reduce((a, b) => f(b) < f(a) ? b : a)` pattern of the source
returns the first element attaining the minimum of `f`: the start-plus-fold
list splits as `l₁ ++ x :: l₂` where `x` is the fold's result, `x`
minimizes `f` over the whole list, and every element before `x` is
strictly worse. -/
lemma foldl_pick_split {α β : Type} [LinearOrder β] (f : α → β) (l : List α) :
    ∀ a : α,
      ∃ l₁ x l₂, a :: l = l₁ ++ x :: l₂ ∧
        l.foldl (fun u v => if f v < f u then v else u) a = x ∧
        (∀ b ∈ a :: l, f x ≤ f b) ∧
        (∀ b ∈ l₁, f x < f b) := by
  induction l with
  | nil =>
    intro a
    refine ⟨[], a, [], rfl, rfl, ?_, ?_⟩
    · intro b hb
      rcases List.mem_singleton.mp hb with rfl
      exact le_rfl
    · intro b hb
      cases hb
  | cons c t ih =>
    intro a
    have hstep : (c :: t).foldl (fun u v => if f v < f u then v else u) a
        = t.foldl (fun u v => if f v < f u then v else u)
            (if f c < f a then c else a) := by
      simp [List.foldl_cons]
    rcases lt_or_le (f c) (f a) with hca | hac
    · obtain ⟨l₁, x, l₂, hsplit, hfold, hmin, hpre⟩ := ih c
      refine ⟨a :: l₁, x, l₂, ?_, ?_, ?_, ?_⟩
      · rw [List.cons_append, ← hsplit]
      · rw [hstep, if_pos hca]
        exact hfold
      · intro b hb
        rcases List.mem_cons.mp hb with rfl | hb
        · exact le_of_lt (lt_of_le_of_lt (hmin c (List.mem_cons_self c t)) hca)
        · exact hmin b hb
      · intro b hb
        rcases List.mem_cons.mp hb with rfl | hb
        · exact lt_of_le_of_lt (hmin c (List.mem_cons_self c t)) hca
        · exact hpre b hb
    · obtain ⟨l₁, x, l₂, hsplit, hfold, hmin, hpre⟩ := ih a
      have hfold' : (c :: t).foldl (fun u v => if f v < f u then v else u) a = x := by
        rw [hstep, if_neg (not_lt.mpr hac)]
        exact hfold
      cases l₁ with
      | nil =>
        simp only [List.nil_append] at hsplit
        injection hsplit with h1 h2
        subst h1
        subst h2
        refine ⟨[], a, c :: t, rfl, hfold', ?_, ?_⟩
        · intro b hb
          rcases List.mem_cons.mp hb with rfl | hb
          · exact le_rfl
          · rcases List.mem_cons.mp hb with rfl | hb
            · exact hac
            · exact hmin b (List.mem_cons_of_mem a hb)
        · intro b hb
          cases hb
      | cons a' l₁' =>
        simp only [List.cons_append] at hsplit
        injection hsplit with h1 h2
        subst h1
        have hax : f x < f a := hpre a (List.mem_cons_self a l₁')
        refine ⟨a :: c :: l₁', x, l₂, ?_, hfold', ?_, ?_⟩
        · rw [List.cons_append, List.cons_append, ← h2]
        · intro b hb
          rcases List.mem_cons.mp hb with rfl | hb
          · exact le_of_lt hax
          · rcases List.mem_cons.mp hb with rfl | hb
            · exact le_trans (le_of_lt hax) hac
            · exact hmin b (List.mem_cons_of_mem a hb)
        · intro b hb
          rcases List.mem_cons.mp hb with rfl | hb
          · exact hax
          · rcases List.mem_cons.mp hb with rfl | hb
            · exact lt_of_lt_of_le hax hac
            · exact hpre b (List.mem_cons_of_mem a hb)

/-- Claim C2: with the safest preference and at least two candidates, the
selector scores every candidate and returns the first one attaining the
minimal score (the comparison is strict less-than, so the first minimal
element survives ties). -/
theorem C2_safest_selects_first_min (crimeData : List CrimeData)
    (routes : List Route) (h2 : 2 ≤ routes.length) :
    ∃ l₁ c l₂,
      routes.map (RS.scoreRoute crimeData) = l₁ ++ c :: l₂ ∧
      RS.selectRoute RouteType.safest crimeData routes
        = .ok ⟨c.coords, c.duration, c.distance, some c.score⟩ ∧
      (∀ b ∈ routes.map (RS.scoreRoute crimeData), c.score ≤ b.score) ∧
      (∀ b ∈ l₁, c.score < b.score) := by
  cases routes with
  | nil => simp at h2
  | cons r0 rest =>
    obtain ⟨l₁, x, l₂, hsplit, hfold, hmin, hpre⟩ :=
      foldl_pick_split ScoredRoute.score (rest.map (RS.scoreRoute crimeData))
        (RS.scoreRoute crimeData r0)
    have hcond : RouteType.safest = RouteType.safest ∧ 1 < (r0 :: rest).length :=
      ⟨rfl, lt_of_lt_of_le one_lt_two h2⟩
    refine ⟨l₁, x, l₂, ?_, ?_, ?_, hpre⟩
    · rw [List.map_cons]
      exact hsplit
    · unfold RS.selectRoute
      dsimp only
      rw [if_pos hcond, hfold]
    · intro b hb
      rw [List.map_cons] at hb
      exact hmin b hb

/-- Witness for `C2_safest_selects_first_min` at a concrete input. -/
theorem C2_safest_selects_first_min_witness :
    2 ≤ ([⟨[(0, 0), (0, 1)], 10, 5⟩, ⟨[(0, 0), (1, 1)], 20, 7⟩] : List Route).length ∧
    ∃ l₁ c l₂,
      ([⟨[(0, 0), (0, 1)], 10, 5⟩, ⟨[(0, 0), (1, 1)], 20, 7⟩] :
          List Route).map (RS.scoreRoute [])
        = l₁ ++ c :: l₂ ∧
      RS.selectRoute RouteType.safest []
          [⟨[(0, 0), (0, 1)], 10, 5⟩, ⟨[(0, 0), (1, 1)], 20, 7⟩]
        = .ok ⟨c.coords, c.duration, c.distance, some c.score⟩ ∧
      (∀ b ∈ ([⟨[(0, 0), (0, 1)], 10, 5⟩, ⟨[(0, 0), (1, 1)], 20, 7⟩] :
          List Route).map (RS.scoreRoute []), c.score ≤ b.score) ∧
      (∀ b ∈ l₁, c.score < b.score) :=
  ⟨by decide, C2_safest_selects_first_min []
    [⟨[(0, 0), (0, 1)], 10, 5⟩, ⟨[(0, 0), (1, 1)], 20, 7⟩] (by decide)⟩

/-- Claim C3: with the fastest preference (any non-empty candidate set), or
with the safest preference and exactly one candidate, the selector returns
the first candidate attaining the minimal distance, and the choice is
independent of the incident data. -/
theorem C3_fastest_selects_min_distance (routeType : RouteType)
    (crimeData : List CrimeData) (routes : List Route) (hne : routes ≠ [])
    (hmode : routeType = RouteType.fastest ∨ routes.length = 1) :
    ∃ l₁ c l₂,
      routes = l₁ ++ c :: l₂ ∧
      RS.selectRoute routeType crimeData routes
        = .ok ⟨c.coords, c.duration, c.distance, none⟩ ∧
      (∀ b ∈ routes, c.distance ≤ b.distance) ∧
      (∀ b ∈ l₁, c.distance < b.distance) ∧
      (∀ crimeData2, RS.selectRoute routeType crimeData2 routes
          = RS.selectRoute routeType crimeData routes) := by
  cases routes with
  | nil => exact absurd rfl hne
  | cons r0 rest =>
    have hcond : ¬ (routeType = RouteType.safest ∧ 1 < (r0 :: rest).length) := by
      rintro ⟨h1, hlen⟩
      rcases hmode with h | h
      · rw [h] at h1
        cases h1
      · rw [h] at hlen
        exact absurd hlen (by norm_num)
    obtain ⟨l₁, x, l₂, hsplit, hfold, hmin, hpre⟩ :=
      foldl_pick_split Route.distance rest r0
    refine ⟨l₁, x, l₂, hsplit, ?_, hmin, hpre, ?_⟩
    · unfold RS.selectRoute
      dsimp only
      rw [if_neg hcond, hfold]
    · intro crimeData2
      unfold RS.selectRoute
      dsimp only
      rw [if_neg hcond, if_neg hcond]

/-- Witness for `C3_fastest_selects_min_distance` at a concrete input. -/
theorem C3_fastest_selects_min_distance_witness :
    ([⟨[(0, 0), (0, 1)], 10, 5⟩, ⟨[(0, 0), (1, 1)], 20, 7⟩] : List Route) ≠ [] ∧
    (RouteType.fastest = RouteType.fastest ∨
      ([⟨[(0, 0), (0, 1)], 10, 5⟩, ⟨[(0, 0), (1, 1)], 20, 7⟩] : List Route).length = 1) ∧
    ∃ l₁ c l₂,
      ([⟨[(0, 0), (0, 1)], 10, 5⟩, ⟨[(0, 0), (1, 1)], 20, 7⟩] : List Route)
        = l₁ ++ c :: l₂ ∧
      RS.selectRoute RouteType.fastest []
          [⟨[(0, 0), (0, 1)], 10, 5⟩, ⟨[(0, 0), (1, 1)], 20, 7⟩]
        = .ok ⟨c.coords, c.duration, c.distance, none⟩ ∧
      (∀ b ∈ ([⟨[(0, 0), (0, 1)], 10, 5⟩, ⟨[(0, 0), (1, 1)], 20, 7⟩] : List Route),
        c.distance ≤ b.distance) ∧
      (∀ b ∈ l₁, c.distance < b.distance) ∧
      (∀ crimeData2, RS.selectRoute RouteType.fastest crimeData2
          [⟨[(0, 0), (0, 1)], 10, 5⟩, ⟨[(0, 0), (1, 1)], 20, 7⟩]
        = RS.selectRoute RouteType.fastest []
          [⟨[(0, 0), (0, 1)], 10, 5⟩, ⟨[(0, 0), (1, 1)], 20, 7⟩]) :=
  ⟨by decide, Or.inl rfl, C3_fastest_selects_min_distance RouteType.fastest []
    [⟨[(0, 0), (0, 1)], 10, 5⟩, ⟨[(0, 0), (1, 1)], 20, 7⟩] (by decide) (Or.inl rfl)⟩

end SafeWalk
